import Mathlib

/-!
Verification of the backup orchestration subsystem of the
brownie-metadata-database repository, as a shallow embedding in Lean 4.

The embedding mirrors `src/backup/config.py`, `src/backup/providers.py`,
`src/backup/manager.py` and `src/backup/scheduler.py`.  External effects
(the `pg_dump`/`psql` subprocesses, gzip, the storage SDKs, the local
filesystem) are modelled as explicit state (association-list stores) and
outcome parameters ("oracles") passed to the embedded operations, so that
every exit path of the Python code corresponds to a branch of a total Lean
function.  Machine-level details that the code never exercises (file
contents, permissions) are abstracted to sizes and timestamps.
-/

namespace Backup

/-! ### Python string helpers used by the source

All character-level work is done by structural recursion over `List Char`
so that concrete instances reduce inside the kernel. -/

/-- Whitespace characters recognised by Python `str.split()`. -/
def wsChar (c : Char) : Bool := c = ' ' ∨ c = '\t' ∨ c = '\n'

/-- Split a character list at every character satisfying `sep`, keeping
empty fields (the splitting core shared by the helpers below). -/
def splitChars (sep : Char → Bool) : List Char → List Char → List (List Char)
  | [], cur => [cur.reverse]
  | c :: cs, cur =>
    if sep c then cur.reverse :: splitChars sep cs []
    else splitChars sep cs (c :: cur)

/-- Python `str.split()` with no argument: split on runs of whitespace and
drop empty fields (`"0 2 * * *".split()` has five elements). -/
def pySplitWs (s : String) : List String :=
  ((splitChars wsChar s.data []).map String.mk).filter (fun t => t ≠ "")

/-- Python `str.split("/")`: split on every slash, keeping empty fields. -/
def pySplitSlash (s : String) : List String :=
  (splitChars (fun c => c = '/') s.data []).map String.mk

/-- Does `pat` occur as a leading segment of `s`? -/
def beginsWith : List Char → List Char → Bool
  | [], _ => true
  | _ :: _, [] => false
  | p :: ps, c :: cs => p = c && beginsWith ps cs

/-- Does `pat` occur as a contiguous segment anywhere in `s`?
(Python `pat in s` for strings.) -/
def containsSeq (pat : List Char) : List Char → Bool
  | [] => pat.isEmpty
  | c :: cs => beginsWith pat (c :: cs) || containsSeq pat cs

/-- Python `s.endswith(suffix)`. -/
def pyEndsWith (s suffix : String) : Bool :=
  beginsWith suffix.data.reverse s.data.reverse

/-- Python `s.startswith(pre)` (also the server-side key filter of the
cloud listings). -/
def pyStartsWith (s pre : String) : Bool :=
  beginsWith pre.data s.data

/-- Python `str.zfill(2)`: left-pad with zeros to width 2; a leading sign
stays in front of the padding. -/
def zfill2 (s : String) : String :=
  if s.length ≥ 2 then s
  else
    match s.data with
    | [] => "00"
    | c :: rest =>
      if c = '+' ∨ c = '-' then
        String.mk (c :: ('0' : Char) :: rest)
      else "0" ++ s

/-- The filename filter used by the local provider in `rglob("*.sql*")`: a file
name matches the glob `*.sql*` iff it contains `".sql"` as a substring. -/
def containsDotSql (s : String) : Bool :=
  containsSeq ".sql".data s.data

/-! ### Configuration (`src/backup/config.py`) -/

/-- The `BackupProvider` enum of `config.py`. -/
inductive ProviderKind where
  | localProv
  | s3
  | gcs
  | azure
  deriving DecidableEq, Repr

/-- The `BackupConfig` dataclass (defaults as in the source; credentials and
db fields kept as plain strings since the core never inspects them). -/
structure BackupConfig where
  provider : ProviderKind := .localProv
  destination : String := "/backups"
  accessKey : Option String := none
  secretKey : Option String := none
  token : Option String := none
  region : Option String := none
  schedule : String := "0 2 * * *"
  retentionDays : Nat := 30
  compression : Bool := true
  encryption : Bool := true
  dbHost : String := "postgres"
  dbPort : Nat := 5432
  dbName : String := "brownie_metadata"
  dbUser : String := "brownie"
  dbPassword : String := "brownie"
  parallelJobs : Nat := 2
  backupTimeout : Nat := 3600
  verifyBackup : Bool := true
  deriving DecidableEq, Repr

/-! ### Storage state

The remote object store visible to one provider instance is modelled as a
list of objects in backend-enumeration order.  Timestamps are integers on a
single global clock (seconds); sizes are byte counts. -/

/-- One remote object, with the metadata fields the providers read:
S3 exposes only `LastModified`, GCS `time_created`/`updated`, Azure
`creation_time`/`last_modified`; both instants are carried here. -/
structure RemoteObj where
  key : String
  size : Nat
  timeCreated : Int
  lastModified : Int
  deriving DecidableEq, Repr

/-- A remote object store (bucket / container / destination directory). -/
abbrev RemoteStore := List RemoteObj

/-- Remove every object stored under `k`. -/
def storeErase (k : String) (s : RemoteStore) : RemoteStore :=
  s.filter (fun o => o.key ≠ k)

/-- Overwriting put: the semantics of `shutil.copy2`, S3 `upload_file`,
GCS `upload_from_filename` and Azure `upload_blob(..., overwrite=True)`. -/
def storeSet (o : RemoteObj) (s : RemoteStore) : RemoteStore :=
  o :: storeErase o.key s

/-- Look up the object stored under `k`. -/
def storeGet (k : String) (s : RemoteStore) : Option RemoteObj :=
  s.find? (fun o => o.key = k)

/-- One file in the destination directory of the local provider, as seen through
`rglob` and `stat`: file name, path relative to the directory, size and
`st_ctime` / `st_mtime`. -/
structure LocalFile where
  name : String
  relPath : String
  size : Nat
  ctime : Int
  mtime : Int
  deriving DecidableEq, Repr

/-- The destination directory of the local provider. -/
abbrev LocalDir := List LocalFile

/-- Remove the file stored at relative path `p`. -/
def dirErase (p : String) (d : LocalDir) : LocalDir :=
  d.filter (fun f => f.relPath ≠ p)

/-- Overwriting copy into the directory (`shutil.copy2` semantics). -/
def dirSet (f : LocalFile) (d : LocalDir) : LocalDir :=
  f :: dirErase f.relPath d

/-! ### Bucket / key-base resolution shared by the cloud providers

`self.bucket_name = destination.split("/")[0]` and
`self.prefix = "/".join(destination.split("/")[1:]) if "/" in destination
else ""` (identical in the S3, GCS and Azure constructors). -/

/-- The bucket / container component of the destination. -/
def destBucket (dest : String) : String :=
  (pySplitSlash dest).headD ""

/-- The key-base (the source field `self.prefix`) of the destination. -/
def destKeyBase (dest : String) : String :=
  if containsSeq "/".data dest.data then
    String.intercalate "/" (pySplitSlash dest).tail
  else ""

/-- Full object key: `f"{prefix}/{remote_path}" if self.prefix else
remote_path` (identical in all cloud provider methods). -/
def cloudKey (keyBase remotePath : String) : String :=
  if keyBase ≠ "" then keyBase ++ "/" ++ remotePath else remotePath

/-- The listing scope: `f"{prefix}/" if self.prefix else ""`. -/
def listScope (keyBase : String) : String :=
  if keyBase ≠ "" then keyBase ++ "/" else ""

/-- `key.split("/")[-1]`, the record name used by the cloud listings. -/
def lastComponent (k : String) : String :=
  (pySplitSlash k).getLastD ""

/-! ### Cron scheduling (`src/backup/scheduler.py`, `_schedule_backup_job`)

`JobSpec` records which `schedule` registration the source performs:
`schedule.every().day.at(t)` becomes `.dailyAt t`, and
`schedule.every().<weekday>.at(t)` becomes `.weeklyAt wd t`. -/

inductive JobSpec where
  | dailyAt (t : String)
  | weeklyAt (wd : String) (t : String)
  deriving DecidableEq, Repr

/-- The keys of the `weekday_map` dict in `_schedule_backup_job`. -/
def weekdayKeys : List String := ["0", "1", "2", "3", "4", "5", "6"]

/-- `_schedule_backup_job`, after the 5-field split: chooses the `schedule`
registration from the five cron fields exactly as the chain of
`if`/`elif` branches in the source does. -/
def scheduleBackupJobParts : List String → Except String JobSpec
  | [m, h, _d, _mo, w] =>
    if m ≠ "*" ∧ h ≠ "*" then
      .ok (.dailyAt (zfill2 h ++ ":" ++ zfill2 m))
    else if h ≠ "*" then
      .ok (.dailyAt (zfill2 h ++ ":00"))
    else if w ≠ "*" then
      if w ∈ weekdayKeys then .ok (.weeklyAt w "02:00")
      else .ok (.dailyAt "02:00")
    else
      .ok (.dailyAt "02:00")
  | parts => .error ("Invalid cron expression: " ++ String.intercalate " " parts)

/-- `_schedule_backup_job` on the raw schedule string: `split()` then the
length-5 check (`raise ValueError` is the `.error` branch). -/
def scheduleBackupJob (scheduleConfig : String) : Except String JobSpec :=
  scheduleBackupJobParts (pySplitWs scheduleConfig)

/-- The "daily at 2 AM" default registration of the final `else` branch. -/
def defaultDailyJob : JobSpec := .dailyAt "02:00"

/-! ### Backup records and listings (`src/backup/providers.py`)

Every `list_backups` builds dicts with keys
`name`/`path`/`size`/`created`/`modified` and returns
`sorted(backups, key=lambda x: x["created"], reverse=True)` — a stable
descending sort, modelled with the stable `List.mergeSort`. -/

structure BackupRecord where
  name : String
  path : String
  size : Nat
  created : Int
  modified : Int
  deriving DecidableEq, Repr

/-- Python `sorted(..., key=lambda x: x["created"], reverse=True)`. -/
def sortByCreatedDesc (l : List BackupRecord) : List BackupRecord :=
  l.mergeSort (fun a b => decide (b.created ≤ a.created))

/-- `LocalBackupProvider.list_backups`: every file matching
`rglob("*.sql*")` (name contains `".sql"`), with `st_ctime` as creation
and `st_mtime` as modification time, sorted newest-first. -/
def localListBackups (dir : LocalDir) : List BackupRecord :=
  sortByCreatedDesc <| dir.filterMap fun f =>
    if containsDotSql f.name then
      some { name := f.name, path := f.relPath, size := f.size,
             created := f.ctime, modified := f.mtime }
    else none

/-- Does a key fall under the cloud listing scope and carry a backup
suffix?  (`obj["Key"].endswith(".sql") or obj["Key"].endswith(".sql.gz")`,
after the server-side prefix filter.) -/
def cloudListMatch (keyBase : String) (k : String) : Bool :=
  pyStartsWith k (listScope keyBase) &&
    (pyEndsWith k ".sql" || pyEndsWith k ".sql.gz")

/-- `S3BackupProvider.list_backups`: objects under the scope whose key
ends in `.sql`/`.sql.gz`; S3 only exposes `LastModified`, used for both
the `created` and `modified` fields. -/
def s3ListBackups (keyBase : String) (store : RemoteStore) : List BackupRecord :=
  sortByCreatedDesc <| store.filterMap fun o =>
    if cloudListMatch keyBase o.key then
      some { name := lastComponent o.key, path := o.key, size := o.size,
             created := o.lastModified, modified := o.lastModified }
    else none

/-- `GCSBackupProvider.list_backups`: like S3 but `created` is
`blob.time_created` and `modified` is `blob.updated`. -/
def gcsListBackups (keyBase : String) (store : RemoteStore) : List BackupRecord :=
  sortByCreatedDesc <| store.filterMap fun o =>
    if cloudListMatch keyBase o.key then
      some { name := lastComponent o.key, path := o.key, size := o.size,
             created := o.timeCreated, modified := o.lastModified }
    else none

/-- `AzureBackupProvider.list_backups`: like GCS with
`blob.creation_time` / `blob.last_modified`. -/
def azureListBackups (keyBase : String) (store : RemoteStore) : List BackupRecord :=
  sortByCreatedDesc <| store.filterMap fun o =>
    if cloudListMatch keyBase o.key then
      some { name := lastComponent o.key, path := o.key, size := o.size,
             created := o.timeCreated, modified := o.lastModified }
    else none

/-! ### Upload / delete (`src/backup/providers.py`)

Each upload is an overwriting put into the store under the
provider-specific key; an SDK/IO failure is the caught-exception branch
returning `False` with the store unchanged, modelled by the `sdkOk`
parameter. -/

/-- `LocalBackupProvider.upload_backup`: `shutil.copy2(source, dest)` with
`dest = backup_dir / remote_path`; `copy2` overwrites an existing
destination and preserves the source `st_mtime`. -/
def localUploadBackup (copyOk : Bool) (srcSize : Nat) (srcMtime : Int)
    (remotePath : String) (now : Int) (dir : LocalDir) : Bool × LocalDir :=
  if copyOk then
    (true, dirSet { name := lastComponent remotePath, relPath := remotePath,
                    size := srcSize, ctime := now, mtime := srcMtime } dir)
  else (false, dir)

/-- `S3BackupProvider.upload_backup`: `upload_file` puts (and replaces)
the object at the derived key; `ClientError` is the `False` branch. -/
def s3UploadBackup (sdkOk : Bool) (keyBase : String) (srcSize : Nat)
    (remotePath : String) (now : Int) (store : RemoteStore) : Bool × RemoteStore :=
  if sdkOk then
    (true, storeSet { key := cloudKey keyBase remotePath, size := srcSize,
                      timeCreated := now, lastModified := now } store)
  else (false, store)

/-- `GCSBackupProvider.upload_backup`: `blob.upload_from_filename` puts
(and replaces) the object at the derived key. -/
def gcsUploadBackup (sdkOk : Bool) (keyBase : String) (srcSize : Nat)
    (remotePath : String) (now : Int) (store : RemoteStore) : Bool × RemoteStore :=
  if sdkOk then
    (true, storeSet { key := cloudKey keyBase remotePath, size := srcSize,
                      timeCreated := now, lastModified := now } store)
  else (false, store)

/-- `AzureBackupProvider.upload_backup`: `upload_blob(name=..., data=...,
overwrite=True)` — replacement is explicit in the source. -/
def azureUploadBackup (sdkOk : Bool) (keyBase : String) (srcSize : Nat)
    (remotePath : String) (now : Int) (store : RemoteStore) : Bool × RemoteStore :=
  if sdkOk then
    (true, storeSet { key := cloudKey keyBase remotePath, size := srcSize,
                      timeCreated := now, lastModified := now } store)
  else (false, store)

/-- `S3BackupProvider.delete_backup` (GCS/Azure are identical up to the
SDK call): delete the object at the derived key; an SDK error is the
`False` branch with the store unchanged. -/
def s3DeleteBackup (sdkOk : Bool) (keyBase : String) (remotePath : String)
    (store : RemoteStore) : Bool × RemoteStore :=
  if sdkOk then (true, storeErase (cloudKey keyBase remotePath) store)
  else (false, store)

/-- `LocalBackupProvider.delete_backup`: `unlink` raises on a missing
file, caught and returned as `False`. -/
def localDeleteBackup (remotePath : String) (dir : LocalDir) : Bool × LocalDir :=
  if dir.any (fun f => f.relPath = remotePath) then
    (true, dirErase remotePath dir)
  else (false, dir)

/-! ### Retention cleanup (`src/backup/providers.py`)

`providers.py` line 10 imports only `datetime` from the `datetime`
module; the cloud `cleanup_old_backups` bodies also use `timedelta`, so
their first statement (computed before the `try:` block) raises
`NameError`.  The import list is carried explicitly so the name-resolution
branch is visible in the embedding. -/

/-- The names imported from the `datetime` module by `providers.py`
(line 10: `from datetime import datetime`). -/
def providersDatetimeImports : List String := ["datetime"]

/-- Error raised by Python when an unimported name is evaluated. -/
def nameErrorTimedelta : String := "NameError: name timedelta is not defined"

/-- `LocalBackupProvider.cleanup_old_backups`: delete every
`rglob("*.sql*")` file with `st_ctime < now - retention_days*24*3600`;
a failing `unlink` (the `deleteFails` oracle) is logged and skipped, the
scan continues; returns the best-effort count and the surviving files. -/
def localCleanupOldBackups (retentionDays : Nat) (now : Int)
    (deleteFails : String → Bool) : LocalDir → Nat × LocalDir
  | [] => (0, [])
  | f :: fs =>
    let rest := localCleanupOldBackups retentionDays now deleteFails fs
    if containsDotSql f.name ∧ f.ctime < now - (retentionDays : Int) * 24 * 3600 then
      if deleteFails f.relPath then (rest.1, f :: rest.2)
      else (rest.1 + 1, rest.2)
    else (rest.1, f :: rest.2)

/-- The delete loop the S3 cleanup would run after its cutoff line:
objects under the scope with `LastModified < now - timedelta(days=rd)`
are deleted best-effort (single failures logged, loop continues). -/
def s3CleanupLoop (retentionDays : Nat) (now : Int)
    (deleteFails : String → Bool) (keyBase : String) : RemoteStore → Nat × RemoteStore
  | [] => (0, [])
  | o :: os =>
    let rest := s3CleanupLoop retentionDays now deleteFails keyBase os
    if pyStartsWith o.key (listScope keyBase) ∧
        o.lastModified < now - (retentionDays : Int) * 24 * 3600 then
      if deleteFails o.key then (rest.1, o :: rest.2)
      else (rest.1 + 1, rest.2)
    else (rest.1, o :: rest.2)

/-- `S3BackupProvider.cleanup_old_backups`: its first statement
`cutoff_date = datetime.now() - timedelta(days=...)` sits before the
`try:` block and evaluates the unimported name `timedelta`, so the call
raises `NameError` before any listing or deletion. -/
def s3CleanupOldBackups (retentionDays : Nat) (now : Int)
    (deleteFails : String → Bool) (keyBase : String) (store : RemoteStore) :
    Except String (Nat × RemoteStore) :=
  if "timedelta" ∈ providersDatetimeImports then
    .ok (s3CleanupLoop retentionDays now deleteFails keyBase store)
  else .error nameErrorTimedelta

/-- The delete loop of the GCS/Azure cleanups (cutoff against
`blob.time_created` / `blob.creation_time`). -/
def gcsCleanupLoop (retentionDays : Nat) (now : Int)
    (deleteFails : String → Bool) (keyBase : String) : RemoteStore → Nat × RemoteStore
  | [] => (0, [])
  | o :: os =>
    let rest := gcsCleanupLoop retentionDays now deleteFails keyBase os
    if pyStartsWith o.key (listScope keyBase) ∧
        o.timeCreated < now - (retentionDays : Int) * 24 * 3600 then
      if deleteFails o.key then (rest.1, o :: rest.2)
      else (rest.1 + 1, rest.2)
    else (rest.1, o :: rest.2)

/-- `GCSBackupProvider.cleanup_old_backups`: same unguarded
`timedelta` use before its `try:` block (cutoff against
`blob.time_created`). -/
def gcsCleanupOldBackups (retentionDays : Nat) (now : Int)
    (deleteFails : String → Bool) (keyBase : String) (store : RemoteStore) :
    Except String (Nat × RemoteStore) :=
  if "timedelta" ∈ providersDatetimeImports then
    .ok (gcsCleanupLoop retentionDays now deleteFails keyBase store)
  else .error nameErrorTimedelta

/-- `AzureBackupProvider.cleanup_old_backups`: same unguarded
`timedelta` use before its `try:` block (cutoff against
`blob.creation_time`). -/
def azureCleanupOldBackups (retentionDays : Nat) (now : Int)
    (deleteFails : String → Bool) (keyBase : String) (store : RemoteStore) :
    Except String (Nat × RemoteStore) :=
  if "timedelta" ∈ providersDatetimeImports then
    .ok (gcsCleanupLoop retentionDays now deleteFails keyBase store)
  else .error nameErrorTimedelta

/-! ### BackupManager (`src/backup/manager.py`)

The manager working directory `/tmp/backups` is an association list
from absolute path to file metadata.  The provider that the manager was
constructed with is reflected by the key under which an uploaded object
becomes visible in the remote store (`managerKey`), and the external
steps (the `pg_dump` subprocess, gzip, the provider upload) by outcome
parameters.  `_create_database_dump` catches `TimeoutExpired` and every
other exception and returns a bool, so its outcome is `ok size`/`fail`;
`_compress_file` has no handler, so a gzip/IO error propagates to
the outer `except` of `create_backup` (`exc msg`); the provider uploads
catch their SDK errors and return a bool. -/

structure FileMeta where
  size : Nat
  ctime : Int
  deriving DecidableEq, Repr

/-- The manager local working directory (path → stat metadata). -/
abbrev LocalFS := List (String × FileMeta)

/-- `Path.unlink` of `p` (`_cleanup_local_files` checks existence first
and swallows errors; a present file is removed). -/
def fsErase (p : String) (fs : LocalFS) : LocalFS :=
  fs.filter (fun e => e.1 ≠ p)

/-- Write (or overwrite) the file at `p`. -/
def fsSet (p : String) (m : FileMeta) (fs : LocalFS) : LocalFS :=
  (p, m) :: fsErase p fs

/-- `Path.stat` / `Path.exists`: the metadata of the file at `p`. -/
def fsGet (p : String) (fs : LocalFS) : Option FileMeta :=
  (fs.find? (fun e => e.1 = p)).map (fun e => e.2)

/-- `_cleanup_local_files(backup_file, compressed_file)`. -/
def cleanupLocalFiles (paths : List String) (fs : LocalFS) : LocalFS :=
  paths.foldl (fun acc p => fsErase p acc) fs

/-- `self.backup_dir / f"{backup_name}.sql"`. -/
def backupFilePath (name : String) : String :=
  "/tmp/backups/" ++ name ++ ".sql"

/-- `self.backup_dir / f"{backup_name}.sql.gz"`. -/
def compressedFilePath (name : String) : String :=
  "/tmp/backups/" ++ name ++ ".sql.gz"

/-- `f"{backup_name}.sql.gz" if self.config.compression else
f"{backup_name}.sql"` — the remote path computed at line 59 of
`create_backup`. -/
def mkRemotePath (compression : Bool) (name : String) : String :=
  if compression then name ++ ".sql.gz" else name ++ ".sql"

/-- The store key under which the manager provider files an uploaded
`remote_path`: the local provider uses it as the destination-relative
path, the cloud providers put it under their key-base. -/
def managerKey (cfg : BackupConfig) (remotePath : String) : String :=
  match cfg.provider with
  | .localProv => remotePath
  | _ => cloudKey (destKeyBase cfg.destination) remotePath

/-- Outcome of `_create_database_dump` (it returns a bool, catching
timeouts and every exception; on success the dump file exists with the
written size). -/
inductive DumpOutcome where
  | ok (size : Nat)
  | fail
  deriving DecidableEq, Repr

/-- Outcome of `_compress_file` (no handler: an error propagates as an
exception to the outer `except` of `create_backup`). -/
inductive CompressOutcome where
  | ok (size : Nat)
  | exc (msg : String)
  deriving DecidableEq, Repr

/-- The external-step outcomes of one `create_backup` run. -/
structure CreateOracle where
  dump : DumpOutcome
  compress : CompressOutcome
  uploadOk : Bool
  verifyOk : Bool
  deriving DecidableEq, Repr

/-- The result dict of `create_backup`. -/
structure CreateResult where
  success : Bool
  backupName : String
  error : Option String := none
  remotePath : Option String := none
  size : Option Nat := none
  created : Option Int := none
  deriving DecidableEq, Repr

/-- Everything observable after one `create_backup` run. -/
structure CreateOutcome where
  result : CreateResult
  fs : LocalFS
  remote : RemoteStore
  uploadCalled : Bool

/-- `BackupManager.create_backup`, step for step:
dump (line 40, early return at 42–47 on `False`); compression (50–55,
an exception goes to the outer handler at 92–99 which runs
`_cleanup_local_files` and returns an error result); upload (58–67,
early return on `False` — note: without cleanup); advisory verification
(70–74, print only); `_cleanup_local_files` (77); `_get_backup_info`
(80), whose `stat` of the just-deleted `final_file` raises
`FileNotFoundError`, handled by the outer `except`. -/
def createBackup (cfg : BackupConfig) (name : String) (o : CreateOracle)
    (now : Int) (fs : LocalFS) (remote : RemoteStore) : CreateOutcome :=
  let backupFile := backupFilePath name
  let compressedFile := compressedFilePath name
  match o.dump with
  | .fail =>
    { result := { success := false, backupName := name,
                  error := some "Failed to create database dump" },
      fs := fs, remote := remote, uploadCalled := false }
  | .ok dumpSize =>
    let fs1 := fsSet backupFile ⟨dumpSize, now⟩ fs
    let compressed : Except String (LocalFS × String) :=
      if cfg.compression then
        match o.compress with
        | .exc msg => .error msg
        | .ok compressedSize =>
          .ok (fsSet compressedFile ⟨compressedSize, now⟩ fs1, compressedFile)
      else .ok (fs1, backupFile)
    match compressed with
    | .error msg =>
      -- outer `except Exception`: cleanup, error result
      { result := { success := false, backupName := name, error := some msg },
        fs := cleanupLocalFiles [backupFile, compressedFile] fs1,
        remote := remote, uploadCalled := false }
    | .ok (fs2, finalFile) =>
      let remotePath := mkRemotePath cfg.compression name
      if ¬ o.uploadOk then
        -- early return, lines 62–67: no cleanup before returning
        { result := { success := false, backupName := name,
                      error := some "Failed to upload backup" },
          fs := fs2, remote := remote, uploadCalled := true }
      else
        let finalMeta := (fsGet finalFile fs2).getD ⟨0, 0⟩
        let remote1 := storeSet { key := managerKey cfg remotePath,
                                  size := finalMeta.size, timeCreated := now,
                                  lastModified := now } remote
        let fs3 := cleanupLocalFiles [backupFile, compressedFile] fs2
        match fsGet finalFile fs3 with
        | some st =>
          { result := { success := true, backupName := name,
                        remotePath := some remotePath,
                        size := some st.size, created := some st.ctime },
            fs := fs3, remote := remote1, uploadCalled := true }
        | none =>
          -- `stat` raised FileNotFoundError; outer `except` cleans up again
          { result := { success := false, backupName := name,
                        error := some ("No such file or directory: " ++ finalFile) },
            fs := cleanupLocalFiles [backupFile, compressedFile] fs3,
            remote := remote1, uploadCalled := true }

/-- The remote path `restore_backup` downloads, computed at line 107
solely from the call-time compression flag. -/
def restoreRemotePath (cfg : BackupConfig) (name : String) : String :=
  if cfg.compression then name ++ ".sql.gz" else name ++ ".sql"

/-- The remote path `delete_backup` deletes, computed at line 163
solely from the call-time compression flag. -/
def deleteRemotePath (cfg : BackupConfig) (name : String) : String :=
  if cfg.compression then name ++ ".sql.gz" else name ++ ".sql"

/-- The `(remote_path, local_target)` pair `restore_backup` passes to
`provider.download_backup` (lines 107–116). -/
def restoreDownloadRequest (cfg : BackupConfig) (name : String) : String × String :=
  (restoreRemotePath cfg name,
   if cfg.compression then "/tmp/backups/restore_" ++ name ++ ".sql.gz"
   else "/tmp/backups/restore_" ++ name ++ ".sql")

/-- The provider-dispatched delete of a `remote_path` as invoked by the
manager: the local provider fails on a missing file, the cloud providers
erase the derived key (an SDK error is `sdkOk = false`). -/
def providerDeleteBackup (cfg : BackupConfig) (sdkOk : Bool)
    (remotePath : String) (store : RemoteStore) : Bool × RemoteStore :=
  match cfg.provider with
  | .localProv =>
    if store.any (fun o => o.key = remotePath) then
      (true, storeErase remotePath store)
    else (false, store)
  | _ =>
    if sdkOk then
      (true, storeErase (cloudKey (destKeyBase cfg.destination) remotePath) store)
    else (false, store)

/-- Result dict of `delete_backup` / `cleanup_old_backups`. -/
structure OpResult where
  success : Bool
  error : Option String := none
  message : Option String := none
  deriving DecidableEq, Repr

/-- `BackupManager.delete_backup` (lines 161–181). -/
def deleteBackup (cfg : BackupConfig) (sdkOk : Bool) (name : String)
    (store : RemoteStore) : OpResult × RemoteStore :=
  let remotePath := deleteRemotePath cfg name
  let r := providerDeleteBackup cfg sdkOk remotePath store
  if r.1 then
    ({ success := true,
       message := some ("Backup " ++ name ++ " deleted successfully") }, r.2)
  else
    ({ success := false, error := some "Failed to delete backup" }, r.2)

/-! ### BackupScheduler (`src/backup/scheduler.py`)

`ScheduleState`: the `running` flag, the module-level `schedule` job
registry, a counter of background-loop launches (`threading.Thread(...).
start()` calls) and of logged state warnings.  `start` mirrors lines
24–43: the already-running early return, `schedule.clear()`, the job
registration (whose `ValueError` propagates, after the registry was
cleared), the `running = True` flip and the single thread launch.
`stop` mirrors lines 45–58: the not-running early return, the flag
flip, the join with `timeout=5` and the registry clear. -/

structure SchedulerState where
  running : Bool := false
  loopStarts : Nat := 0
  registeredJobs : List JobSpec := []
  warnings : Nat := 0
  deriving DecidableEq, Repr

/-- `BackupScheduler.start`; the second component is the exception the
call raises, if any (the mutated state is kept either way). -/
def startScheduler (scheduleConfig : String) (s : SchedulerState) :
    SchedulerState × Option String :=
  if s.running then ({ s with warnings := s.warnings + 1 }, none)
  else
    let s1 := { s with registeredJobs := [] }  -- schedule.clear()
    match scheduleBackupJob scheduleConfig with
    | .error e => (s1, some e)
    | .ok j =>
      ({ s1 with registeredJobs := [j], running := true,
                 loopStarts := s.loopStarts + 1 }, none)

/-- `BackupScheduler.stop`; the second component records whether the
background loop was signalled and joined with the bounded (5 s) wait. -/
def stopScheduler (s : SchedulerState) : SchedulerState × Bool :=
  if ¬ s.running then ({ s with warnings := s.warnings + 1 }, false)
  else ({ s with running := false, registeredJobs := [] }, true)

/-- The `running` field of `get_scheduler_status` (line 80). -/
def getSchedulerStatusRunning (s : SchedulerState) : Bool :=
  s.running

/-! ### Basic store and filesystem lemmas -/

theorem find?_filter_incompatible {α : Type} (P Q : α → Bool) (l : List α)
    (h : ∀ a, P a = true → Q a = false) : (l.filter Q).find? P = none := by
  induction l with
  | nil => rfl
  | cons a l ih =>
    by_cases hQ : Q a = true
    · rw [List.filter_cons_of_pos hQ,
        List.find?_cons_of_neg _ (fun hP => Bool.false_ne_true ((h a hP) ▸ hQ)), ih]
    · rw [List.filter_cons_of_neg (by simpa using hQ), ih]

theorem find?_filter_compatible {α : Type} (P Q : α → Bool) (l : List α)
    (h : ∀ a, P a = true → Q a = true) : (l.filter Q).find? P = l.find? P := by
  induction l with
  | nil => rfl
  | cons a l ih =>
    by_cases hP : P a = true
    · rw [List.filter_cons_of_pos (h a hP), List.find?_cons_of_pos _ hP,
        List.find?_cons_of_pos _ hP]
    · by_cases hQ : Q a = true
      · rw [List.filter_cons_of_pos hQ, List.find?_cons_of_neg _ hP,
          List.find?_cons_of_neg _ hP, ih]
      · rw [List.filter_cons_of_neg (by simpa using hQ),
          List.find?_cons_of_neg _ hP, ih]

theorem fsGet_fsErase_self (p : String) (fs : LocalFS) :
    fsGet p (fsErase p fs) = none := by
  rw [fsGet, fsErase, find?_filter_incompatible]
  · rfl
  · intro a hP
    simp only [decide_eq_true_eq] at hP
    simp [hP]

theorem fsGet_fsErase_ne (p q : String) (fs : LocalFS) (h : p ≠ q) :
    fsGet p (fsErase q fs) = fsGet p fs := by
  rw [fsGet, fsErase, find?_filter_compatible, fsGet]
  intro a hP
  simp only [decide_eq_true_eq] at hP
  simp [hP, h]

theorem backupFilePath_ne_compressedFilePath (name : String) :
    backupFilePath name ≠ compressedFilePath name := by
  intro h
  have hl := congrArg String.length h
  simp only [backupFilePath, compressedFilePath, String.length_append] at hl
  have h4 : (".sql" : String).length = 4 := rfl
  have h7 : (".sql.gz" : String).length = 7 := rfl
  rw [h4, h7] at hl
  omega

theorem cleanupLocalFiles_pair (a b : String) (fs : LocalFS) :
    cleanupLocalFiles [a, b] fs = fsErase b (fsErase a fs) := rfl

theorem storeGet_storeErase_self (k : String) (s : RemoteStore) :
    storeGet k (storeErase k s) = none := by
  rw [storeGet, storeErase, find?_filter_incompatible]
  intro a hP
  simp only [decide_eq_true_eq] at hP
  simp [hP]

theorem storeGet_storeErase_ne (k j : String) (s : RemoteStore) (h : k ≠ j) :
    storeGet k (storeErase j s) = storeGet k s := by
  rw [storeGet, storeErase, find?_filter_compatible, storeGet]
  intro a hP
  simp only [decide_eq_true_eq] at hP
  simp [hP, h]

theorem storeGet_storeSet_self (o : RemoteObj) (s : RemoteStore) :
    storeGet o.key (storeSet o s) = some o := by
  rw [storeSet, storeGet, List.find?_cons_of_pos _ (by simp)]

theorem storeGet_storeSet_self_of_key (k : String) (o : RemoteObj) (s : RemoteStore)
    (h : o.key = k) : storeGet k (storeSet o s) = some o :=
  h ▸ storeGet_storeSet_self o s

theorem storeGet_storeSet_ne (k : String) (o : RemoteObj) (s : RemoteStore)
    (h : k ≠ o.key) : storeGet k (storeSet o s) = storeGet k s := by
  have h2 : ¬ o.key = k := fun hp => h (hp ▸ rfl)
  rw [storeSet]
  calc storeGet k (o :: storeErase o.key s)
      = storeGet k (storeErase o.key s) := by
        rw [storeGet, List.find?_cons_of_neg _ (by simpa using h2)]; rfl
    _ = storeGet k s := storeGet_storeErase_ne k o.key s h

theorem mem_storeSet_same_key (o x : RemoteObj) (s : RemoteStore)
    (hx : x ∈ storeSet o s) (hk : x.key = o.key) : x = o := by
  rcases List.mem_cons.mp hx with heq | hmem
  · exact heq
  · have := List.of_mem_filter hmem
    simp [hk] at this

theorem fsGet_fsSet_self (p : String) (m : FileMeta) (fs : LocalFS) :
    fsGet p (fsSet p m fs) = some m := by
  rw [fsSet, fsGet, List.find?_cons_of_pos _ (by simp)]
  rfl

theorem fsGet_fsSet_ne (p q : String) (m : FileMeta) (fs : LocalFS)
    (h : p ≠ q) : fsGet p (fsSet q m fs) = fsGet p fs := by
  have h2 : ¬ (q = p) := fun hqp => h hqp.symm
  rw [fsSet]
  calc fsGet p ((q, m) :: fsErase q fs)
      = fsGet p (fsErase q fs) := by
        rw [fsGet, List.find?_cons_of_neg _ (by simpa using h2)]; rfl
    _ = fsGet p fs := fsGet_fsErase_ne p q fs h

/-! ## Claim theorems -/

/-- Claim C1: The claim reads: for every valid configuration, if the dump,
optional compression and upload steps all succeed, `create_backup`
returns `success=true` with metadata from a stat of the local file *before*
the local files are deleted.  The code does the opposite: line 77 runs
`_cleanup_local_files` and only then line 80 calls `_get_backup_info`,
whose `stat` of the just-deleted `final_file` raises `FileNotFoundError`;
the outer `except` turns the fully successful run into `success=false`
(even though the upload did complete, last conjunct).  This theorem
evaluates the embedded code on every such run. -/
theorem createBackup_success_path_reports_failure
    (cfg : BackupConfig) (name : String) (o : CreateOracle) (now : Int)
    (fs : LocalFS) (remote : RemoteStore) (ds cs : Nat)
    (hd : o.dump = .ok ds) (hc : o.compress = .ok cs) (hu : o.uploadOk = true) :
    (createBackup cfg name o now fs remote).result.success = false ∧
    (createBackup cfg name o now fs remote).result.error =
      some ("No such file or directory: " ++
        (if cfg.compression then compressedFilePath name else backupFilePath name)) ∧
    storeGet (managerKey cfg (mkRemotePath cfg.compression name))
        (createBackup cfg name o now fs remote).remote ≠ none := by
  have hbc := backupFilePath_ne_compressedFilePath name
  cases hcomp : cfg.compression with
  | true =>
    simp only [createBackup, hd, hc, hu, hcomp, cleanupLocalFiles_pair,
      if_true, not_true, if_neg, Bool.true_eq_false]
    rw [fsGet_fsErase_self]
    refine ⟨rfl, rfl, ?_⟩
    simp only [mkRemotePath, if_true, if_false]
    rw [storeGet_storeSet_self_of_key]
    exacts [Option.some_ne_none _, rfl]
  | false =>
    simp only [createBackup, hd, hc, hu, hcomp, cleanupLocalFiles_pair,
      if_false, Bool.false_eq_true, not_true, if_neg]
    rw [fsGet_fsErase_ne _ _ _ hbc, fsGet_fsErase_self]
    refine ⟨rfl, rfl, ?_⟩
    simp only [mkRemotePath, if_false, if_true]
    rw [storeGet_storeSet_self_of_key]
    exacts [Option.some_ne_none _, rfl]

/-- Witness for C1: the concrete failing run (default local config,
explicit name, all external steps succeeding). -/
theorem createBackup_success_path_reports_failure_witness :
    (createBackup {} "t1" ⟨.ok 100, .ok 60, true, true⟩ 0 [] []).result.success = false :=
  (createBackup_success_path_reports_failure {} "t1" ⟨.ok 100, .ok 60, true, true⟩
    0 [] [] 100 60 rfl rfl rfl).1

/-- Claim C2, counterexample: With the default (compressing) configuration,
a successful dump and compression followed by an upload failure returns
through lines 62–67 of `create_backup`, which do not call
`_cleanup_local_files`: both the `.sql` dump and the `.sql.gz` file are
still present afterwards, refuting "neither file remains ... on every
exit path". -/
theorem createBackup_upload_failure_leaves_local_files :
    (createBackup {} "t1" ⟨.ok 100, .ok 60, false, true⟩ 0 [] []).result.success = false ∧
    fsGet (backupFilePath "t1")
      (createBackup {} "t1" ⟨.ok 100, .ok 60, false, true⟩ 0 [] []).fs = some ⟨100, 0⟩ ∧
    fsGet (compressedFilePath "t1")
      (createBackup {} "t1" ⟨.ok 100, .ok 60, false, true⟩ 0 [] []).fs = some ⟨60, 0⟩ :=
  ⟨rfl, rfl, rfl⟩

/-- Claim C2, amended: `create_backup` removes both local working files on
the success path (which ends in the stat exception, cleaning up twice)
and on the exception path out of a compression error; but the early
returns for dump failure and upload failure skip `_cleanup_local_files`,
so after an upload failure the dump file (and the compressed file, when
compression ran) remains in the working directory. -/
theorem createBackup_cleanup_paths
    (cfg : BackupConfig) (name : String) (o : CreateOracle) (now : Int)
    (fs : LocalFS) (remote : RemoteStore) (ds cs : Nat) (msg : String) :
    (o.dump = .ok ds → o.compress = .ok cs → o.uploadOk = true →
      fsGet (backupFilePath name) (createBackup cfg name o now fs remote).fs = none ∧
      fsGet (compressedFilePath name) (createBackup cfg name o now fs remote).fs = none) ∧
    (o.dump = .ok ds → cfg.compression = true → o.compress = .exc msg →
      fsGet (backupFilePath name) (createBackup cfg name o now fs remote).fs = none ∧
      fsGet (compressedFilePath name) (createBackup cfg name o now fs remote).fs = none) ∧
    (o.dump = .ok ds → o.compress = .ok cs → o.uploadOk = false →
      fsGet (backupFilePath name) (createBackup cfg name o now fs remote).fs
        = some ⟨ds, now⟩) := by
  have hbc := backupFilePath_ne_compressedFilePath name
  refine ⟨fun hd hc hu => ?_, fun hd hcomp hc => ?_, fun hd hc hu => ?_⟩
  · cases hcomp : cfg.compression with
    | true =>
      simp only [createBackup, hd, hc, hu, hcomp, cleanupLocalFiles_pair,
        if_true, not_true, if_neg, Bool.true_eq_false]
      rw [fsGet_fsErase_self]
      simp only [if_false]
      constructor
      · rw [fsGet_fsErase_ne _ _ _ hbc, fsGet_fsErase_self]
      · rw [fsGet_fsErase_self]
    | false =>
      simp only [createBackup, hd, hc, hu, hcomp, cleanupLocalFiles_pair,
        if_false, Bool.false_eq_true, not_true, if_neg]
      rw [fsGet_fsErase_ne _ _ _ hbc, fsGet_fsErase_self]
      simp only [if_false]
      constructor
      · rw [fsGet_fsErase_ne _ _ _ hbc, fsGet_fsErase_self]
      · rw [fsGet_fsErase_self]
  · simp only [createBackup, hd, hc, hcomp, cleanupLocalFiles_pair, if_true]
    constructor
    · rw [fsGet_fsErase_ne _ _ _ hbc, fsGet_fsErase_self]
    · rw [fsGet_fsErase_self]
  · cases hcomp : cfg.compression with
    | true =>
      simp only [createBackup, hd, hc, hu, hcomp, if_true, Bool.false_eq_true,
        not_false_iff, if_pos]
      rw [fsGet_fsSet_ne _ _ _ _ hbc, fsGet_fsSet_self]
    | false =>
      simp only [createBackup, hd, hc, hu, hcomp, if_false, Bool.false_eq_true,
        not_false_iff, if_pos]
      rw [fsGet_fsSet_self]

/-- Witness for C2 (amended): the cleanup clause at the concrete
all-steps-succeed run and the leftover clause at the concrete
upload-failure run. -/
theorem createBackup_cleanup_paths_witness :
    fsGet (backupFilePath "t1")
      (createBackup {} "t1" ⟨.ok 100, .ok 60, true, true⟩ 0 [] []).fs = none ∧
    fsGet (backupFilePath "t1")
      (createBackup {} "t1" ⟨.ok 100, .ok 60, false, true⟩ 0 [] []).fs = some ⟨100, 0⟩ :=
  ⟨((createBackup_cleanup_paths {} "t1" ⟨.ok 100, .ok 60, true, true⟩
      0 [] [] 100 60 "").1 rfl rfl rfl).1,
   (createBackup_cleanup_paths {} "t1" ⟨.ok 100, .ok 60, false, true⟩
      0 [] [] 100 60 "").2.2 rfl rfl rfl⟩

/-- Claim C9: If the dump step fails, `create_backup` returns
`success=false` with the non-empty error "Failed to create database
dump", the provider upload is never invoked, and the remote store —
hence any subsequent `list_backups` — is unchanged. -/
theorem createBackup_dump_failure_isolated
    (cfg : BackupConfig) (name : String) (o : CreateOracle) (now : Int)
    (fs : LocalFS) (remote : RemoteStore) (h : o.dump = .fail) :
    (createBackup cfg name o now fs remote).result.success = false ∧
    (createBackup cfg name o now fs remote).result.error =
      some "Failed to create database dump" ∧
    "Failed to create database dump" ≠ "" ∧
    (createBackup cfg name o now fs remote).uploadCalled = false ∧
    (createBackup cfg name o now fs remote).remote = remote ∧
    ∀ keyBase, s3ListBackups keyBase (createBackup cfg name o now fs remote).remote
      = s3ListBackups keyBase remote := by
  obtain ⟨d, c, u, v⟩ := o
  cases h
  exact ⟨rfl, rfl, by decide, rfl, rfl, fun _ => rfl⟩

/-- Witness for C9: the concrete dump-failure run. -/
theorem createBackup_dump_failure_isolated_witness :
    (createBackup {} "t1" ⟨.fail, .ok 60, true, true⟩ 0 [] []).uploadCalled = false :=
  (createBackup_dump_failure_isolated {} "t1" ⟨.fail, .ok 60, true, true⟩
    0 [] [] rfl).2.2.2.1

/-- Claim C3: The claim reads: for every backend variant,
`cleanup_old_backups` returns a best-effort deleted count without
raising.  The local variant does, but the S3, GCS and Azure variants
compute `cutoff_date = datetime.now() - timedelta(days=...)` *before*
their `try:` block while `providers.py` line 10 imports only `datetime`
from the `datetime` module — every cloud cleanup call raises `NameError`
before listing or deleting anything. -/
theorem cloudCleanupOldBackups_raises_nameError
    (retentionDays : Nat) (now : Int) (deleteFails : String → Bool)
    (keyBase : String) (store : RemoteStore) :
    s3CleanupOldBackups retentionDays now deleteFails keyBase store
      = .error nameErrorTimedelta ∧
    gcsCleanupOldBackups retentionDays now deleteFails keyBase store
      = .error nameErrorTimedelta ∧
    azureCleanupOldBackups retentionDays now deleteFails keyBase store
      = .error nameErrorTimedelta := by
  refine ⟨?_, ?_, ?_⟩
  · rw [s3CleanupOldBackups, if_neg (by decide)]
  · rw [gcsCleanupOldBackups, if_neg (by decide)]
  · rw [azureCleanupOldBackups, if_neg (by decide)]

/-- Claim C7: Local retention uses the strict comparison
`st_ctime < now - retention_days*24*3600`: a file created exactly at the
cutoff is retained, one created one second earlier is deleted; and with
retention 2 days and files dated today, yesterday and three days ago,
exactly the three-day-old file is deleted. -/
theorem localCleanup_strict_older_than (now : Int) (sz : Nat) (mt : Int) (rd : Nat) :
    localCleanupOldBackups rd now (fun _ => false)
        [⟨"a.sql", "a.sql", sz, now - (rd : Int) * 24 * 3600, mt⟩]
      = (0, [⟨"a.sql", "a.sql", sz, now - (rd : Int) * 24 * 3600, mt⟩]) ∧
    localCleanupOldBackups rd now (fun _ => false)
        [⟨"a.sql", "a.sql", sz, now - (rd : Int) * 24 * 3600 - 1, mt⟩]
      = (1, []) ∧
    localCleanupOldBackups 2 now (fun _ => false)
        [⟨"today.sql", "today.sql", sz, now, mt⟩,
         ⟨"yesterday.sql", "yesterday.sql", sz, now - 86400, mt⟩,
         ⟨"threedays.sql", "threedays.sql", sz, now - 259200, mt⟩]
      = (1, [⟨"today.sql", "today.sql", sz, now, mt⟩,
             ⟨"yesterday.sql", "yesterday.sql", sz, now - 86400, mt⟩]) := by
  refine ⟨?_, ?_, ?_⟩
  · simp only [localCleanupOldBackups]
    rw [if_neg (fun hc => absurd hc.2 (by omega))]
  · simp only [localCleanupOldBackups]
    rw [if_pos ⟨by decide, by omega⟩, if_neg (by decide)]
  · simp only [localCleanupOldBackups]
    rw [if_neg (fun hc => absurd hc.2 (by omega)),
      if_neg (fun hc => absurd hc.2 (by omega)),
      if_pos ⟨by decide, by omega⟩, if_neg (by decide)]

/-- Claim C4, counterexample: The 5-field expression `*/5 2 * * *` is not
one of the supported patterns (its minute field is not numeric), yet it
does not degrade to the daily 02:00 default: both `minute` and `hour`
differ from `"*"`, so `_schedule_backup_job` takes the specific-time
branch and registers `schedule.every().day.at("02:*/5")` — a different
job (and an invalid time string for the `schedule` library). -/
theorem scheduleBackupJob_unsupported_not_default :
    scheduleBackupJob "*/5 2 * * *" = .ok (.dailyAt "02:*/5") ∧
    scheduleBackupJob "*/5 2 * * *" ≠ .ok defaultDailyJob := by
  refine ⟨rfl, fun h => ?_⟩
  rw [show scheduleBackupJob "*/5 2 * * *" = .ok (.dailyAt "02:*/5") from rfl] at h
  exact absurd (Except.ok.inj h) (by decide)

/-- Claim C4, amended: A 5-field expression silently degrades to the daily
02:00 default exactly when its hour field is `"*"` and its weekday field
is `"*"` or not one of the digits 0–6; any minute, day and month fields
are then ignored without an error.  (When minute and hour are both
non-wildcard, the raw zfilled text is registered instead, as the
counterexample shows.) -/
theorem scheduleBackupJobParts_wildcard_hour_defaults
    (m d mo w : String) (hw : w = "*" ∨ w ∉ weekdayKeys) :
    scheduleBackupJobParts [m, "*", d, mo, w] = .ok defaultDailyJob := by
  simp only [scheduleBackupJobParts]
  rw [if_neg (fun hc => hc.2 rfl), if_neg (fun hc => hc rfl)]
  rcases hw with hw | hw
  · rw [if_neg (fun hc => hc hw)]; rfl
  · by_cases hws : w = "*"
    · rw [if_neg (fun hc => hc hws)]; rfl
    · rw [if_pos hws, if_neg hw]; rfl

/-- Witness for C4 (amended): minute-only `30 * * * 7` (weekday 7 is not
a `weekday_map` key) registers the daily 02:00 default. -/
theorem scheduleBackupJobParts_wildcard_hour_defaults_witness :
    scheduleBackupJobParts ["30", "*", "*", "*", "7"] = .ok defaultDailyJob :=
  scheduleBackupJobParts_wildcard_hour_defaults "30" "*" "*" "7" (Or.inr (by decide))

/-- Claim C8: The scheduler is a two-state machine: on a stopped scheduler
whose cron expression registers a job, `start` raises nothing,
transitions to running (reported by `get_scheduler_status`), and
launches exactly one background loop; a second `start` only logs a
warning, spawning no second loop and leaving the job registry alone;
`stop` on a stopped scheduler only logs a warning; `stop` on a running
scheduler signals the loop, joins it with the bounded 5 s wait, and
transitions back to stopped. -/
theorem backupScheduler_state_machine (cfgStr : String) (j : JobSpec)
    (s : SchedulerState) (hj : scheduleBackupJob cfgStr = .ok j)
    (h0 : s.running = false) :
    (startScheduler cfgStr s).2 = none ∧
    (startScheduler cfgStr s).1.running = true ∧
    getSchedulerStatusRunning (startScheduler cfgStr s).1 = true ∧
    (startScheduler cfgStr s).1.loopStarts = s.loopStarts + 1 ∧
    (startScheduler cfgStr s).1.registeredJobs = [j] ∧
    (startScheduler cfgStr (startScheduler cfgStr s).1).2 = none ∧
    (startScheduler cfgStr (startScheduler cfgStr s).1).1
      = { (startScheduler cfgStr s).1 with
          warnings := (startScheduler cfgStr s).1.warnings + 1 } ∧
    (startScheduler cfgStr (startScheduler cfgStr s).1).1.loopStarts
      = (startScheduler cfgStr s).1.loopStarts ∧
    (stopScheduler s).1 = { s with warnings := s.warnings + 1 } ∧
    (stopScheduler s).2 = false ∧
    (stopScheduler (startScheduler cfgStr s).1).1.running = false ∧
    (stopScheduler (startScheduler cfgStr s).1).2 = true := by
  have h1 : startScheduler cfgStr s
      = Prod.mk { s with
          registeredJobs := [j]
          running := true
          loopStarts := s.loopStarts + 1 } none := by
    rw [startScheduler, if_neg (by simp [h0]), hj]
  have h2 : startScheduler cfgStr (startScheduler cfgStr s).1
      = Prod.mk { (startScheduler cfgStr s).1 with
          warnings := (startScheduler cfgStr s).1.warnings + 1 } none := by
    rw [h1, startScheduler]
    rw [if_pos rfl]
  have h3 : stopScheduler s
      = Prod.mk { s with warnings := s.warnings + 1 } false := by
    rw [stopScheduler, if_pos (by simp [h0])]
  have h4 : stopScheduler (startScheduler cfgStr s).1
      = Prod.mk { (startScheduler cfgStr s).1 with
          running := false
          registeredJobs := [] } true := by
    rw [h1, stopScheduler]
    rw [if_neg (by simp)]
  refine ⟨?_, ?_, ?_, ?_, ?_, ?_, ?_, ?_, ?_, ?_, ?_, ?_⟩
  · rw [h1]
  · rw [h1]
  · rw [getSchedulerStatusRunning, h1]
  · rw [h1]
  · rw [h1]
  · rw [h2]
  · rw [h2]
  · rw [h2]
  · rw [h3]
  · rw [h3]
  · rw [h4]
  · rw [h4]

/-- Witness for C8: the default schedule on a fresh scheduler; the
second `start` leaves the loop count at 1. -/
theorem backupScheduler_state_machine_witness :
    (startScheduler "0 2 * * *" ({} : SchedulerState)).1.running = true ∧
    (startScheduler "0 2 * * *"
      (startScheduler "0 2 * * *" ({} : SchedulerState)).1).1.loopStarts = 1 ∧
    (stopScheduler (startScheduler "0 2 * * *" ({} : SchedulerState)).1).1.running
      = false := by
  obtain ⟨-, hrun, -, hls, -, -, -, hls2, -, -, hstop, -⟩ :=
    backupScheduler_state_machine "0 2 * * *" (.dailyAt "02:00") {} (by rfl) rfl
  exact ⟨hrun, by rw [hls2, hls], hstop⟩

/-- Claim C5: `restore_backup` (line 107) and `delete_backup` (line 163)
derive the remote object key solely from the call-time compression flag
— `name + ".sql.gz"` when compression is enabled, `name + ".sql"`
otherwise — identically to each other and to the upload key of `create_backup`
key, and never from any stored record: the key a cloud delete erases is
a function of the config alone, and (last conjunct) deleting backup
`t1` under a compressing config does not touch a record of `t1` that was
stored uncompressed at `t1.sql`. -/
theorem restoreDelete_key_from_call_time_config :
    (∀ cfg name, restoreRemotePath cfg name = deleteRemotePath cfg name) ∧
    (∀ cfg₁ cfg₂ : BackupConfig, ∀ name,
      cfg₁.compression = cfg₂.compression →
        restoreRemotePath cfg₁ name = restoreRemotePath cfg₂ name ∧
        deleteRemotePath cfg₁ name = deleteRemotePath cfg₂ name) ∧
    (∀ cfg name, (restoreDownloadRequest cfg name).1 = mkRemotePath cfg.compression name ∧
        deleteRemotePath cfg name = mkRemotePath cfg.compression name) ∧
    (∀ cfg : BackupConfig, ∀ name store, cfg.provider ≠ .localProv →
        (deleteBackup cfg true name store).2
          = storeErase (cloudKey (destKeyBase cfg.destination)
              (mkRemotePath cfg.compression name)) store) ∧
    ((deleteBackup {} true "t1" [⟨"t1.sql", 5, 0, 0⟩]).1.success = false ∧
      (deleteBackup {} true "t1" [⟨"t1.sql", 5, 0, 0⟩]).2 = [⟨"t1.sql", 5, 0, 0⟩]) := by
  refine ⟨fun cfg name => rfl, ?_, fun cfg name => ⟨rfl, rfl⟩, ?_, rfl, rfl⟩
  · intro cfg₁ cfg₂ name h
    constructor
    · rw [restoreRemotePath, restoreRemotePath, h]
    · rw [deleteRemotePath, deleteRemotePath, h]
  · intro cfg name store hprov
    cases hp : cfg.provider with
    | localProv => exact absurd hp hprov
    | s3 =>
      rw [deleteBackup, providerDeleteBackup, hp]; rfl
    | gcs =>
      rw [deleteBackup, providerDeleteBackup, hp]; rfl
    | azure =>
      rw [deleteBackup, providerDeleteBackup, hp]; rfl

/-- Witness for C5: equal compression flags give equal keys, and a cloud
delete erases exactly the config-derived key. -/
theorem restoreDelete_key_from_call_time_config_witness :
    restoreRemotePath {} "b" = restoreRemotePath { compression := true } "b" ∧
    (deleteBackup { provider := .s3, destination := "bkt/pre" } true "t1" []).2
      = storeErase (cloudKey (destKeyBase "bkt/pre") (mkRemotePath true "t1")) [] := by
  obtain ⟨-, h2, -, h4, -⟩ := restoreDelete_key_from_call_time_config
  exact ⟨(h2 {} { compression := true } "b" rfl).1,
    h4 { provider := .s3, destination := "bkt/pre" } "t1" [] (by decide)⟩

/-! ### Sortedness of the listings -/

theorem sortByCreatedDesc_sorted (l : List BackupRecord) :
    (sortByCreatedDesc l).Pairwise (fun a b => b.created ≤ a.created) := by
  have htrans : ∀ a b c : BackupRecord,
      decide (b.created ≤ a.created) = true →
      decide (c.created ≤ b.created) = true →
      decide (c.created ≤ a.created) = true := by
    intro a b c hab hbc
    simp only [decide_eq_true_eq] at *
    exact le_trans hbc hab
  have htot : ∀ a b : BackupRecord,
      (decide (b.created ≤ a.created) || decide (a.created ≤ b.created)) = true := by
    intro a b
    rcases le_total b.created a.created with h | h <;> simp [h]
  have h := List.sorted_mergeSort htrans htot l
  exact h.imp (fun hab => by simpa using hab)

theorem sortByCreatedDesc_perm (l : List BackupRecord) :
    (sortByCreatedDesc l).Perm l :=
  List.mergeSort_perm l _

/-- Shared membership fact for the three cloud listings: every returned
path of the returned record lies under the listing scope and ends in `.sql` or
`.sql.gz`. -/
theorem mem_cloudListCore {mk : RemoteObj → BackupRecord}
    (hpath : ∀ o, (mk o).path = o.key) (keyBase : String) (store : RemoteStore)
    (r : BackupRecord)
    (hr : r ∈ sortByCreatedDesc (store.filterMap fun o =>
      if cloudListMatch keyBase o.key then some (mk o) else none)) :
    pyStartsWith r.path (listScope keyBase) = true ∧
    (pyEndsWith r.path ".sql" = true ∨ pyEndsWith r.path ".sql.gz" = true) := by
  rw [sortByCreatedDesc, List.mem_mergeSort, List.mem_filterMap] at hr
  obtain ⟨o, ho, heq⟩ := hr
  by_cases hm : cloudListMatch keyBase o.key = true
  · rw [if_pos hm] at heq
    obtain rfl : mk o = r := Option.some.inj heq
    rw [cloudListMatch, Bool.and_eq_true] at hm
    rw [hpath]
    exact ⟨hm.1, by simpa using hm.2⟩
  · rw [if_neg hm] at heq
    cases heq

/-- Claim C6, counterexample: The local variant lists every
`rglob("*.sql*")` match, i.e. every file whose *name contains* `".sql"`:
a file `corrupt.sqlite` — which ends in neither `.sql` nor `.sql.gz` —
appears in its output, refuting "exactly the objects whose names end in
.sql or .sql.gz" for every variant. -/
theorem localListBackups_includes_non_backup_suffix :
    ∃ r ∈ localListBackups
        [{ name := "corrupt.sqlite", relPath := "corrupt.sqlite",
           size := 5, ctime := 10, mtime := 10 }],
      pyEndsWith r.name ".sql" = false ∧ pyEndsWith r.name ".sql.gz" = false := by
  refine ⟨{ name := "corrupt.sqlite", path := "corrupt.sqlite",
            size := 5, created := 10, modified := 10 }, ?_, by decide, by decide⟩
  rw [localListBackups, sortByCreatedDesc, List.mem_mergeSort]
  refine List.mem_filterMap.mpr ⟨_, List.mem_singleton.mpr rfl, ?_⟩
  rw [if_pos (by decide)]

/-- Claim C6, amended: Every variant returns records carrying name, size
and creation time, sorted by creation time descending, with no side
effects, and every matching object appears; the cloud variants (S3, GCS,
Azure) return exactly the objects under the configured scope whose keys
end in `.sql`/`.sql.gz`, while the *local* variant instead returns
exactly the files whose name contains `".sql"` as a substring (the
`*.sql*` glob), which also admits names such as `corrupt.sqlite`. -/
theorem listBackups_sorted_and_filtered (keyBase : String) (store : RemoteStore)
    (dir : LocalDir) :
    (s3ListBackups keyBase store).Pairwise (fun a b => b.created ≤ a.created) ∧
    (gcsListBackups keyBase store).Pairwise (fun a b => b.created ≤ a.created) ∧
    (azureListBackups keyBase store).Pairwise (fun a b => b.created ≤ a.created) ∧
    (localListBackups dir).Pairwise (fun a b => b.created ≤ a.created) ∧
    (∀ r ∈ s3ListBackups keyBase store,
      pyStartsWith r.path (listScope keyBase) = true ∧
      (pyEndsWith r.path ".sql" = true ∨ pyEndsWith r.path ".sql.gz" = true)) ∧
    (∀ r ∈ gcsListBackups keyBase store,
      pyStartsWith r.path (listScope keyBase) = true ∧
      (pyEndsWith r.path ".sql" = true ∨ pyEndsWith r.path ".sql.gz" = true)) ∧
    (∀ r ∈ azureListBackups keyBase store,
      pyStartsWith r.path (listScope keyBase) = true ∧
      (pyEndsWith r.path ".sql" = true ∨ pyEndsWith r.path ".sql.gz" = true)) ∧
    (∀ o ∈ store, cloudListMatch keyBase o.key = true →
      ∃ r ∈ s3ListBackups keyBase store, r.path = o.key ∧ r.size = o.size ∧
        r.created = o.lastModified) ∧
    (∀ o ∈ store, cloudListMatch keyBase o.key = true →
      ∃ r ∈ gcsListBackups keyBase store, r.path = o.key ∧ r.size = o.size ∧
        r.created = o.timeCreated) ∧
    (∀ o ∈ store, cloudListMatch keyBase o.key = true →
      ∃ r ∈ azureListBackups keyBase store, r.path = o.key ∧ r.size = o.size ∧
        r.created = o.timeCreated) ∧
    (∀ r ∈ localListBackups dir, containsDotSql r.name = true) ∧
    (∀ f ∈ dir, containsDotSql f.name = true →
      ∃ r ∈ localListBackups dir, r.path = f.relPath ∧ r.size = f.size ∧
        r.created = f.ctime) := by
  refine ⟨sortByCreatedDesc_sorted _, sortByCreatedDesc_sorted _,
    sortByCreatedDesc_sorted _, sortByCreatedDesc_sorted _,
    fun r hr => mem_cloudListCore (fun o => rfl) keyBase store r hr,
    fun r hr => mem_cloudListCore (fun o => rfl) keyBase store r hr,
    fun r hr => mem_cloudListCore (fun o => rfl) keyBase store r hr,
    ?_, ?_, ?_, ?_, ?_⟩
  · intro o ho hm
    refine ⟨{ name := lastComponent o.key, path := o.key, size := o.size,
              created := o.lastModified, modified := o.lastModified },
      ?_, rfl, rfl, rfl⟩
    rw [s3ListBackups, sortByCreatedDesc, List.mem_mergeSort]
    exact List.mem_filterMap.mpr ⟨o, ho, by rw [if_pos hm]⟩
  · intro o ho hm
    refine ⟨{ name := lastComponent o.key, path := o.key, size := o.size,
              created := o.timeCreated, modified := o.lastModified },
      ?_, rfl, rfl, rfl⟩
    rw [gcsListBackups, sortByCreatedDesc, List.mem_mergeSort]
    exact List.mem_filterMap.mpr ⟨o, ho, by rw [if_pos hm]⟩
  · intro o ho hm
    refine ⟨{ name := lastComponent o.key, path := o.key, size := o.size,
              created := o.timeCreated, modified := o.lastModified },
      ?_, rfl, rfl, rfl⟩
    rw [azureListBackups, sortByCreatedDesc, List.mem_mergeSort]
    exact List.mem_filterMap.mpr ⟨o, ho, by rw [if_pos hm]⟩
  · intro r hr
    rw [localListBackups, sortByCreatedDesc, List.mem_mergeSort,
      List.mem_filterMap] at hr
    obtain ⟨f, hf, heq⟩ := hr
    by_cases hm : containsDotSql f.name = true
    · rw [if_pos hm] at heq
      obtain rfl : _ = r := Option.some.inj heq
      exact hm
    · rw [if_neg hm] at heq
      cases heq
  · intro f hf hm
    refine ⟨{ name := f.name, path := f.relPath, size := f.size,
              created := f.ctime, modified := f.mtime }, ?_, rfl, rfl, rfl⟩
    rw [localListBackups, sortByCreatedDesc, List.mem_mergeSort]
    exact List.mem_filterMap.mpr ⟨f, hf, by rw [if_pos hm]⟩

/-- Witness for C6 (amended): the completeness clauses at a concrete
store and directory. -/
theorem listBackups_sorted_and_filtered_witness :
    (∃ r ∈ s3ListBackups "p" [⟨"p/a.sql", 7, 3, 3⟩], r.path = "p/a.sql" ∧
        r.size = 7 ∧ r.created = 3) ∧
    (∃ r ∈ gcsListBackups "p" [⟨"p/a.sql", 7, 3, 3⟩], r.path = "p/a.sql" ∧
        r.size = 7 ∧ r.created = 3) ∧
    (∃ r ∈ azureListBackups "p" [⟨"p/a.sql", 7, 3, 3⟩], r.path = "p/a.sql" ∧
        r.size = 7 ∧ r.created = 3) ∧
    (∃ r ∈ localListBackups
        [{ name := "a.sql", relPath := "a.sql", size := 7, ctime := 3, mtime := 3 }],
      r.path = "a.sql" ∧ r.size = 7 ∧ r.created = 3) := by
  obtain ⟨-, -, -, -, -, -, -, hs3, hgcs, haz, -, hloc⟩ :=
    listBackups_sorted_and_filtered "p" [⟨"p/a.sql", 7, 3, 3⟩]
      [{ name := "a.sql", relPath := "a.sql", size := 7, ctime := 3, mtime := 3 }]
  exact ⟨hs3 _ (List.mem_singleton.mpr rfl) (by decide),
    hgcs _ (List.mem_singleton.mpr rfl) (by decide),
    haz _ (List.mem_singleton.mpr rfl) (by decide),
    hloc _ (List.mem_singleton.mpr rfl) (by decide)⟩

/-- Files at other relative paths survive an overwriting copy; any file
found at the copied path afterwards is the new one. -/
theorem mem_dirSet_same_path (g f : LocalFile) (d : LocalDir)
    (hf : f ∈ dirSet g d) (hp : f.relPath = g.relPath) : f = g := by
  rcases List.mem_cons.mp hf with heq | hmem
  · exact heq
  · have := List.of_mem_filter hmem
    simp [hp] at this

/-- Claim C10: the upload of every variant is an overwriting put: with the SDK
call succeeding it returns `True` and the store afterwards holds exactly
the new object at the derived key (any previously stored object at that
key is gone), other keys untouched — `shutil.copy2` for local,
`upload_file` for S3, `upload_from_filename` for GCS and the explicit
`overwrite=True` for Azure; and at the manager level `create_backup`
with all steps succeeding puts the new object at the derived key
whatever the store held before, while its returned result does not
depend on the remote store at all (so an existing backup of the same
name triggers no error or warning). -/
theorem uploadBackup_overwrites :
    (∀ keyBase rp : String, ∀ sz : Nat, ∀ now : Int, ∀ store : RemoteStore,
      (s3UploadBackup true keyBase sz rp now store).1 = true ∧
      storeGet (cloudKey keyBase rp) (s3UploadBackup true keyBase sz rp now store).2
        = some ⟨cloudKey keyBase rp, sz, now, now⟩ ∧
      ∀ k, k ≠ cloudKey keyBase rp →
        storeGet k (s3UploadBackup true keyBase sz rp now store).2 = storeGet k store) ∧
    (∀ keyBase rp : String, ∀ sz : Nat, ∀ now : Int, ∀ store : RemoteStore,
      (gcsUploadBackup true keyBase sz rp now store).1 = true ∧
      storeGet (cloudKey keyBase rp) (gcsUploadBackup true keyBase sz rp now store).2
        = some ⟨cloudKey keyBase rp, sz, now, now⟩) ∧
    (∀ keyBase rp : String, ∀ sz : Nat, ∀ now : Int, ∀ store : RemoteStore,
      (azureUploadBackup true keyBase sz rp now store).1 = true ∧
      storeGet (cloudKey keyBase rp) (azureUploadBackup true keyBase sz rp now store).2
        = some ⟨cloudKey keyBase rp, sz, now, now⟩) ∧
    (∀ sz : Nat, ∀ mt now : Int, ∀ rp : String, ∀ dir : LocalDir,
      (localUploadBackup true sz mt rp now dir).1 = true ∧
      (⟨lastComponent rp, rp, sz, now, mt⟩ : LocalFile)
        ∈ (localUploadBackup true sz mt rp now dir).2 ∧
      ∀ f ∈ (localUploadBackup true sz mt rp now dir).2, f.relPath = rp →
        f = ⟨lastComponent rp, rp, sz, now, mt⟩) ∧
    (∀ cfg : BackupConfig, ∀ name : String, ∀ o : CreateOracle, ∀ now : Int,
      ∀ fs : LocalFS, ∀ remote : RemoteStore, ∀ ds cs : Nat,
      o.dump = .ok ds → o.compress = .ok cs → o.uploadOk = true →
      (createBackup cfg name o now fs remote).remote
        = storeSet ⟨managerKey cfg (mkRemotePath cfg.compression name),
            if cfg.compression then cs else ds, now, now⟩ remote) ∧
    (∀ cfg : BackupConfig, ∀ name : String, ∀ o : CreateOracle, ∀ now : Int,
      ∀ fs : LocalFS, ∀ r₁ r₂ : RemoteStore,
      (createBackup cfg name o now fs r₁).result
        = (createBackup cfg name o now fs r₂).result) := by
  refine ⟨?_, ?_, ?_, ?_, ?_, ?_⟩
  · intro keyBase rp sz now store
    exact ⟨rfl, storeGet_storeSet_self_of_key _ _ _ rfl,
      fun k hk => storeGet_storeSet_ne _ _ _ hk⟩
  · intro keyBase rp sz now store
    exact ⟨rfl, storeGet_storeSet_self_of_key _ _ _ rfl⟩
  · intro keyBase rp sz now store
    exact ⟨rfl, storeGet_storeSet_self_of_key _ _ _ rfl⟩
  · intro sz mt now rp dir
    exact ⟨rfl, List.mem_cons_self _ _,
      fun f hf hp => mem_dirSet_same_path _ f dir hf hp⟩
  · intro cfg name o now fs remote ds cs hd hc hu
    have hbc := backupFilePath_ne_compressedFilePath name
    cases hcomp : cfg.compression with
    | true =>
      simp only [createBackup, hd, hc, hu, hcomp, cleanupLocalFiles_pair,
        if_true, not_true, if_neg, Bool.true_eq_false, if_false]
      rw [fsGet_fsErase_self]
      rw [fsGet_fsSet_self]
      rfl
    | false =>
      simp only [createBackup, hd, hc, hu, hcomp, cleanupLocalFiles_pair,
        if_false, Bool.false_eq_true, not_true, if_neg]
      rw [fsGet_fsErase_ne _ _ _ hbc, fsGet_fsErase_self]
      rw [fsGet_fsSet_self]
      rfl
  · intro cfg name o now fs r₁ r₂
    obtain ⟨d, c, u, v⟩ := o
    have hbc := backupFilePath_ne_compressedFilePath name
    cases d with
    | fail => rfl
    | ok ds =>
      cases hcomp : cfg.compression with
      | true =>
        cases c with
        | exc msg => simp only [createBackup, hcomp, if_true]
        | ok cs =>
          cases u with
          | false =>
            simp only [createBackup, hcomp, if_true, Bool.false_eq_true,
              not_false_eq_true, if_pos]
          | true =>
            simp only [createBackup, hcomp, cleanupLocalFiles_pair,
              if_true, if_false]
            rw [fsGet_fsErase_self]
            simp only [not_true, if_false]
      | false =>
        cases u with
        | false =>
          simp only [createBackup, hcomp, if_false, Bool.false_eq_true,
            not_false_eq_true, if_pos]
        | true =>
          simp only [createBackup, hcomp, cleanupLocalFiles_pair,
            Bool.false_eq_true, if_false]
          rw [fsGet_fsErase_ne _ _ _ hbc, fsGet_fsErase_self]
          simp only [not_true, if_false]

/-- Witness for C10: uploading over an existing object at the same key
replaces it, and `create_backup` of a name that already exists remotely
stores the new object at that key. -/
theorem uploadBackup_overwrites_witness :
    (s3UploadBackup true "p" 60 "t1.sql.gz" 0 [⟨"p/t1.sql.gz", 5, -10, -10⟩]).1 = true ∧
    storeGet (cloudKey "p" "t1.sql.gz")
        (s3UploadBackup true "p" 60 "t1.sql.gz" 0 [⟨"p/t1.sql.gz", 5, -10, -10⟩]).2
      = some ⟨cloudKey "p" "t1.sql.gz", 60, 0, 0⟩ ∧
    (createBackup {} "t1" ⟨.ok 100, .ok 60, true, true⟩ 0 []
        [⟨"t1.sql.gz", 5, -10, -10⟩]).remote
      = storeSet ⟨managerKey {} (mkRemotePath true "t1"), 60, 0, 0⟩
          [⟨"t1.sql.gz", 5, -10, -10⟩] := by
  obtain ⟨hs3, -, -, -, hmgr, -⟩ := uploadBackup_overwrites
  refine ⟨(hs3 "p" "t1.sql.gz" 60 0 _).1, (hs3 "p" "t1.sql.gz" 60 0 _).2.1, ?_⟩
  exact hmgr {} "t1" ⟨.ok 100, .ok 60, true, true⟩ 0 [] _ 100 60 rfl rfl rfl

end Backup

/-- Sanity: the default schedule string registers the daily 02:00 job. -/
example : Backup.scheduleBackupJob "0 2 * * *" =
    .ok (.dailyAt "02:00") := by rfl

example : Backup.scheduleBackupJob "* * * * 3" =
    .ok (.weeklyAt "3" "02:00") := by rfl

example : Backup.scheduleBackupJob "*/5 2 * * *" =
    .ok (.dailyAt "02:*/5") := by rfl

example : Backup.scheduleBackupJob "30 * * * *" =
    .ok (.dailyAt "02:00") := by rfl

example : Backup.zfill2 "2" = "02" := by decide
